import Mathlib

/-!
Shallow embedding of the SOCKS5 proxy core from `main.go` of micro-socks.

A client connection is modelled as a byte stream to read from, a log of the
write calls issued on the socket (each entry is the payload of one `Write`
call), and an oracle `failAt` telling, for each write call in order, whether
that call returns an error.  `io.ReadFull` of `n` bytes succeeds exactly when
at least `n` bytes remain in the stream.  Wire bytes are modelled as `Nat`
values in `0..255`.
-/

namespace MicroSocks

abbrev Byte := Nat

/-- SOCKS protocol version byte (`VERSION` in main.go). -/
def VERSION : Byte := 0x05

/-- CONNECT command byte (`CMD_CONNECT`). -/
def CMD_CONNECT : Byte := 0x01

/-- IPv4 address type (`ATYP_IPV4`). -/
def ATYP_IPV4 : Byte := 0x01

/-- Domain-name address type (`ATYP_DOMAINNAME`). -/
def ATYP_DOMAINNAME : Byte := 0x03

/-- IPv6 address type (`ATYP_IPV6`). -/
def ATYP_IPV6 : Byte := 0x04

/-- No-authentication method (`AUTH_NONE`). -/
def AUTH_NONE : Byte := 0x00

/-- Username/password method (`AUTH_USERNAME`). -/
def AUTH_USERNAME : Byte := 0x02

/-- No-acceptable-methods marker (`AUTH_NOACCEPT`). -/
def AUTH_NOACCEPT : Byte := 0xFF

/-- Reply code 0x00 (`REP_SUCCESS`). -/
def REP_SUCCESS : Byte := 0x00

/-- Reply code 0x01 (`REP_GENERAL_FAILURE`). -/
def REP_GENERAL_FAILURE : Byte := 0x01

/-- Reply code 0x03 (`REP_NETWORK_UNREACHABLE`). -/
def REP_NETWORK_UNREACHABLE : Byte := 0x03

/-- Reply code 0x04 (`REP_HOST_UNREACHABLE`). -/
def REP_HOST_UNREACHABLE : Byte := 0x04

/-- Reply code 0x05 (`REP_CONNECTION_REFUSED`). -/
def REP_CONNECTION_REFUSED : Byte := 0x05

/-- Reply code 0x07 (`REP_CMD_NOT_SUPPORTED`). -/
def REP_CMD_NOT_SUPPORTED : Byte := 0x07

/-- Reply code 0x08 (`REP_ATYP_NOT_SUPPORTED`). -/
def REP_ATYP_NOT_SUPPORTED : Byte := 0x08

/-- One client TCP connection, as seen by the proxy: the bytes not yet read,
the write calls already issued (payload of each), and an oracle giving for
each write call index whether that `conn.Write` returns an error. -/
structure Conn where
  input : List Byte
  writes : List (List Byte)
  failAt : Nat → Bool

/-- Model of `io.ReadFull(conn, buf)` for a buffer of `n` bytes: succeeds
with the first `n` bytes of the stream exactly when that many remain. -/
def readFull (n : Nat) (c : Conn) : Option (List Byte × Conn) :=
  if n ≤ c.input.length then
    some (c.input.take n, { c with input := c.input.drop n })
  else
    none

/-- Model of `conn.Write(bs)`: the call is logged and the oracle decides
whether it reports an error (`true` in the first component means success). -/
def Conn.write (c : Conn) (bs : List Byte) : Bool × Conn :=
  (!(c.failAt c.writes.length), { c with writes := c.writes ++ [bs] })

/-- The credential mapping of `Config.Users`: usernames and passwords are the
raw byte strings read off the wire (Go strings are byte sequences). -/
structure Config where
  users : List (List Byte × List Byte)

/-- The method-selection loop of `negotiateAuth` (main.go lines 224-234):
`chosenMethod` starts at `AUTH_NOACCEPT` and the first offered method equal
to `AUTH_USERNAME` (when authentication is required) or `AUTH_NONE` (when it
is not) is chosen. -/
def chooseMethod (requireAuth : Bool) : List Byte → Byte
  | [] => AUTH_NOACCEPT
  | m :: rest =>
    if requireAuth && m == AUTH_USERNAME then AUTH_USERNAME
    else if !requireAuth && m == AUTH_NONE then AUTH_NONE
    else chooseMethod requireAuth rest

/-- The distinct failure returns of `negotiateAuth`. -/
inductive AuthError
  | readError
  | invalidVersion
  | writeError
  | noAcceptableMethods
  | invalidSubVersion
  | invalidCredentials
  deriving DecidableEq

/-- Outcome of `negotiateAuth`: `nil` return (authenticated) or an error. -/
inductive AuthResult
  | authenticated
  | failed (e : AuthError)
  deriving DecidableEq

/-- The username/password sub-negotiation block of `negotiateAuth`
(main.go lines 247-291): read `[subversion, ulen]`, the username, `[plen]`,
the password; look the username up in the mapping; on unknown username or
password mismatch write `[0x01, 0x01]` with the write error discarded and
fail; on match write `[0x01, 0x00]`, a failed write failing the negotiation. -/
def subNegotiate (config : Config) (c : Conn) : AuthResult × Conn :=
  match readFull 2 c with
  | none => (.failed .readError, c)
  | some (auth, c1) =>
    if auth.getD 0 0 ≠ 0x01 then (.failed .invalidSubVersion, c1)
    else
      match readFull (auth.getD 1 0) c1 with
      | none => (.failed .readError, c1)
      | some (username, c2) =>
        match readFull 1 c2 with
        | none => (.failed .readError, c2)
        | some (plenBuf, c3) =>
          match readFull (plenBuf.getD 0 0) c3 with
          | none => (.failed .readError, c3)
          | some (password, c4) =>
            match config.users.lookup username with
            | none => (.failed .invalidCredentials, (c4.write [0x01, 0x01]).2)
            | some stored =>
              if stored ≠ password then
                (.failed .invalidCredentials, (c4.write [0x01, 0x01]).2)
              else
                let w := c4.write [0x01, 0x00]
                if w.1 then (.authenticated, w.2) else (.failed .writeError, w.2)

/-- Model of `negotiateAuth` (main.go lines 205-294): read `[version, n]`
and `n` method bytes, pick a method per `chooseMethod`, write the two-byte
selection reply, fail when no method is acceptable, and run the
username/password sub-negotiation when that method was chosen. -/
def negotiateAuth (config : Config) (c : Conn) : AuthResult × Conn :=
  match readFull 2 c with
  | none => (.failed .readError, c)
  | some (header, c1) =>
    if header.getD 0 0 ≠ VERSION then (.failed .invalidVersion, c1)
    else
      match readFull (header.getD 1 0) c1 with
      | none => (.failed .readError, c1)
      | some (methods, c2) =>
        let requireAuth := !config.users.isEmpty
        let chosen := chooseMethod requireAuth methods
        let w := c2.write [VERSION, chosen]
        if !w.1 then (.failed .writeError, w.2)
        else if chosen == AUTH_NOACCEPT then (.failed .noAcceptableMethods, w.2)
        else if chosen == AUTH_USERNAME then subNegotiate config w.2
        else (.authenticated, w.2)

/-- Parsed destination of a connect request, by address type.  The Go code
renders each into a host string before dialing (dotted quad for IPv4, the
raw bytes for a domain, canonical textual form for IPv6); each rendering is
injective on its address type, so the raw parsed bytes determine it. -/
inductive DstAddr
  | ipv4 (bytes : List Byte)
  | domain (bytes : List Byte)
  | ipv6 (bytes : List Byte)
  deriving DecidableEq

/-- Local IP of the outbound socket, as classified by
`localAddr.IP.To4()` (main.go lines 384-387): `v4` when `To4` succeeds
(4 bytes), `v6` when it is nil and `To16` is used (16 bytes). -/
inductive LocalIP
  | v4 (bytes : List Byte)
  | v6 (bytes : List Byte)
  deriving DecidableEq

/-- The `ipBytes` value computed at main.go lines 384-387. -/
def LocalIP.ipBytes : LocalIP → List Byte
  | .v4 b => b
  | .v6 b => b

/-- The observable features of a Go dial error that `mapDialError` tests, in
the order the code tests them: whether it is a `net.Error` whose `Timeout()`
is true, whether `errors.As` finds an `os.SyscallError` wrapping
`ECONNREFUSED`, whether `errors.As` finds a `net.DNSError`, and the
characters of its `Error()` message. -/
structure DialError where
  isTimeout : Bool
  isConnRefusedSyscall : Bool
  isDNSError : Bool
  msg : List Char
  deriving DecidableEq

/-- Outcome of `dialer.Dial`: the local endpoint of the new socket on
success, or a dial error. -/
inductive DialResult
  | ok (localIP : LocalIP) (localPort : Nat)
  | fail (e : DialError)

/-- Helper for `containsSeq`: does `needle` occur at the head of `hay`? -/
def startsWith : List Char → List Char → Bool
  | _, [] => true
  | [], _ :: _ => false
  | h :: hs, n :: ns => h == n && startsWith hs ns

/-- Model of Go `strings.Contains(hay, needle)`: does `needle` occur as a
contiguous run inside `hay`? -/
def containsSeq : List Char → List Char → Bool
  | [], needle => needle.isEmpty
  | h :: t, needle => startsWith (h :: t) needle || containsSeq t needle

/-- Model of `mapDialError` (main.go lines 496-519): ordered best-effort
classification of a dial error into a SOCKS5 reply code. -/
def mapDialError (e : DialError) : Byte :=
  if e.isTimeout then REP_HOST_UNREACHABLE
  else if e.isConnRefusedSyscall then REP_CONNECTION_REFUSED
  else if e.isDNSError then REP_HOST_UNREACHABLE
  else if containsSeq e.msg ("connection refused".toList) then REP_CONNECTION_REFUSED
  else if containsSeq e.msg ("network is unreachable".toList) then REP_NETWORK_UNREACHABLE
  else REP_GENERAL_FAILURE

/-- Model of `binary.BigEndian.PutUint16`: big-endian bytes of a port. -/
def putUint16 (p : Nat) : List Byte := [p / 256 % 256, p % 256]

/-- Model of `binary.BigEndian.Uint16` on a two-byte buffer. -/
def uint16be (bs : List Byte) : Nat := 256 * bs.getD 0 0 + bs.getD 1 0

/-- Model of `writeReply` (main.go lines 459-478): a ten-or-more-byte reply
with the given code; with no bind IP the address is the IPv4 zero address
and the port as given (both call sites pass nil and 0). -/
def writeReply (c : Conn) (rep : Byte) (bindIP : Option LocalIP) (bindPort : Nat) :
    Bool × Conn :=
  let tb : Byte × List Byte :=
    match bindIP with
    | none => (ATYP_IPV4, [0, 0, 0, 0])
    | some (.v4 b) => (ATYP_IPV4, b)
    | some (.v6 b) => (ATYP_IPV6, b)
  c.write ([VERSION, rep, 0x00, tb.1] ++ tb.2 ++ putUint16 bindPort)

/-- Model of `writeBoundSuccess` (main.go lines 481-493): success reply
carrying the bound address bytes, typed IPv6 exactly when 16 bytes long. -/
def writeBoundSuccess (c : Conn) (ipBytes : List Byte) (port : Nat) : Bool × Conn :=
  let addrType := if ipBytes.length == 16 then ATYP_IPV6 else ATYP_IPV4
  c.write ([VERSION, REP_SUCCESS, 0x00, addrType] ++ ipBytes ++ putUint16 port)

/-- The distinct failure returns of `handleRequest` (the relay phase itself
is outside this model; see `ReqOut.relayed`). -/
inductive ReqError
  | readError
  | invalidVersion
  | cmdNotSupported
  | atypNotSupported
  | dialFailed (e : DialError)
  | writeError
  deriving DecidableEq

/-- Outcome of `handleRequest`. -/
inductive ReqResult
  | ok
  | failed (e : ReqError)
  deriving DecidableEq

/-- Result of the address-type switch at main.go lines 317-351, before any
reply is written: a parsed destination, a short read, or the default
(unsupported address type) branch. -/
inductive AddrReadOut
  | ok (a : DstAddr) (c : Conn)
  | short (c : Conn)
  | unsupported (c : Conn)

/-- The address-type switch of `handleRequest` (main.go lines 317-351). -/
def readAddr (atyp : Byte) (c : Conn) : AddrReadOut :=
  if atyp = ATYP_IPV4 then
    match readFull 4 c with
    | none => .short c
    | some (b, c1) => .ok (.ipv4 b) c1
  else if atyp = ATYP_DOMAINNAME then
    match readFull 1 c with
    | none => .short c
    | some (lenB, c1) =>
      match readFull (lenB.getD 0 0) c1 with
      | none => .short c1
      | some (d, c2) => .ok (.domain d) c2
  else if atyp = ATYP_IPV6 then
    match readFull 16 c with
    | none => .short c
    | some (b, c1) => .ok (.ipv6 b) c1
  else .unsupported c

/-- What one run of `handleRequest` did: its return value, the final client
connection state, the dial attempts made (destination and port), and whether
the session reached the relay phase. -/
structure ReqOut where
  res : ReqResult
  conn : Conn
  dials : List (DstAddr × Nat)
  relayed : Bool

/-- The tail of `handleRequest` from the dial on (main.go lines 360-427):
one dial attempt; on failure a reply carrying the mapped code and no relay;
on success the bound-address reply and then the relay phase. -/
def afterDial (dialer : DstAddr → Nat → DialResult) (dst : DstAddr) (dstPort : Nat)
    (c : Conn) : ReqOut :=
  match dialer dst dstPort with
  | .fail e =>
    ⟨.failed (.dialFailed e), (writeReply c (mapDialError e) none 0).2, [(dst, dstPort)], false⟩
  | .ok localIP localPort =>
    let w := writeBoundSuccess c localIP.ipBytes localPort
    if w.1 then ⟨.ok, w.2, [(dst, dstPort)], true⟩
    else ⟨.failed .writeError, w.2, [(dst, dstPort)], false⟩

/-- Model of `handleRequest` (main.go lines 297-428): read the four-byte
header, check version and command, parse the destination by address type,
read the big-endian port, then dial and reply (`afterDial`). -/
def handleRequest (dialer : DstAddr → Nat → DialResult) (c : Conn) : ReqOut :=
  match readFull 4 c with
  | none => ⟨.failed .readError, c, [], false⟩
  | some (header, c1) =>
    if header.getD 0 0 ≠ VERSION then ⟨.failed .invalidVersion, c1, [], false⟩
    else if header.getD 1 0 ≠ CMD_CONNECT then
      ⟨.failed .cmdNotSupported, (writeReply c1 REP_CMD_NOT_SUPPORTED none 0).2, [], false⟩
    else
      match readAddr (header.getD 3 0) c1 with
      | .short c2 => ⟨.failed .readError, c2, [], false⟩
      | .unsupported c2 =>
        ⟨.failed .atypNotSupported, (writeReply c2 REP_ATYP_NOT_SUPPORTED none 0).2, [], false⟩
      | .ok dst c2 =>
        match readFull 2 c2 with
        | none => ⟨.failed .readError, c2, [], false⟩
        | some (portBuf, c3) => afterDial dialer dst (uint16be portBuf) c3

/-- The address-type byte a destination is encoded with on the wire. -/
def DstAddr.atyp : DstAddr → Byte
  | .ipv4 _ => ATYP_IPV4
  | .domain _ => ATYP_DOMAINNAME
  | .ipv6 _ => ATYP_IPV6

/-- The wire bytes of a destination address: raw bytes for IPv4/IPv6, a
length byte then the bytes for a domain. -/
def DstAddr.encodeBytes : DstAddr → List Byte
  | .ipv4 b => b
  | .domain d => d.length :: d
  | .ipv6 b => b

/-- Well-formedness of a destination for encoding: 4 IPv4 bytes, at most
255 domain bytes (the length must fit one byte), 16 IPv6 bytes. -/
def DstAddr.wfb : DstAddr → Bool
  | .ipv4 b => b.length == 4
  | .domain d => d.length ≤ 255
  | .ipv6 b => b.length == 16

/-- Encoding of a connect request for destination `a` and port `p`, per the
wire layout `[version, cmd, reserved, atyp, dest-addr, dest-port:2]`. -/
def encodeRequest (a : DstAddr) (p : Nat) : List Byte :=
  [VERSION, CMD_CONNECT, 0x00, a.atyp] ++ a.encodeBytes ++ putUint16 p

/-! Helper lemmas about the connection model. -/

lemma readFull_exact (n : Nat) (bs rest : List Byte) (c : Conn)
    (h : c.input = bs ++ rest) (hn : bs.length = n) :
    readFull n c = some (bs, { c with input := rest }) := by
  subst hn
  have hle : bs.length ≤ c.input.length := by rw [h]; simp
  simp [readFull, hle, h, List.take_left, List.drop_left]

lemma readFull_writes_eq (n : Nat) (c : Conn) (bs : List Byte) (c1 : Conn)
    (h : readFull n c = some (bs, c1)) :
    c1.writes = c.writes ∧ c1.failAt = c.failAt := by
  unfold readFull at h
  split at h
  · simp only [Option.some.injEq, Prod.mk.injEq] at h
    rw [← h.2]
    exact ⟨rfl, rfl⟩
  · exact absurd h (by simp)

lemma chooseMethod_true_mem (methods : List Byte) (h : AUTH_USERNAME ∈ methods) :
    chooseMethod true methods = AUTH_USERNAME := by
  induction methods with
  | nil => cases h
  | cons m rest ih =>
    rcases List.mem_cons.mp h with h1 | h1
    · subst h1; simp [chooseMethod]
    · by_cases hm : m = AUTH_USERNAME
      · subst hm; simp [chooseMethod]
      · simp [chooseMethod, hm, ih h1]

lemma chooseMethod_true_not_mem (methods : List Byte) (h : AUTH_USERNAME ∉ methods) :
    chooseMethod true methods = AUTH_NOACCEPT := by
  induction methods with
  | nil => rfl
  | cons m rest ih =>
    have hm : m ≠ AUTH_USERNAME := fun e => h (e ▸ List.mem_cons_self m rest)
    simp [chooseMethod, hm, ih (fun hx => h (List.mem_cons_of_mem m hx))]

lemma chooseMethod_false_mem (methods : List Byte) (h : AUTH_NONE ∈ methods) :
    chooseMethod false methods = AUTH_NONE := by
  induction methods with
  | nil => cases h
  | cons m rest ih =>
    rcases List.mem_cons.mp h with h1 | h1
    · subst h1; simp [chooseMethod]
    · by_cases hm : m = AUTH_NONE
      · subst hm; simp [chooseMethod]
      · simp [chooseMethod, hm, ih h1]

lemma chooseMethod_false_not_mem (methods : List Byte) (h : AUTH_NONE ∉ methods) :
    chooseMethod false methods = AUTH_NOACCEPT := by
  induction methods with
  | nil => rfl
  | cons m rest ih =>
    have hm : m ≠ AUTH_NONE := fun e => h (e ▸ List.mem_cons_self m rest)
    simp [chooseMethod, hm, ih (fun hx => h (List.mem_cons_of_mem m hx))]

lemma negotiateAuth_greeting (config : Config) (methods rest : List Byte) (c : Conn)
    (hin : c.input = VERSION :: methods.length :: (methods ++ rest)) :
    negotiateAuth config c =
      (let chosen := chooseMethod (!config.users.isEmpty) methods
       let w := Conn.write { c with input := rest } [VERSION, chosen]
       if !w.1 then (.failed .writeError, w.2)
       else if chosen == AUTH_NOACCEPT then (.failed .noAcceptableMethods, w.2)
       else if chosen == AUTH_USERNAME then subNegotiate config w.2
       else (.authenticated, w.2)) := by
  have h1 : readFull 2 c =
      some ([VERSION, methods.length], { c with input := methods ++ rest }) :=
    readFull_exact 2 [VERSION, methods.length] (methods ++ rest) c hin rfl
  have h2 : readFull methods.length { c with input := methods ++ rest } =
      some (methods, { c with input := rest }) :=
    readFull_exact methods.length methods rest _ rfl rfl
  rw [negotiateAuth, h1]
  simp only [List.getD_cons_zero, List.getD_cons_succ, h2]
  simp [VERSION]

lemma subNegotiate_writes (config : Config) (c : Conn) :
    (subNegotiate config c).2.writes = c.writes ∨
    (subNegotiate config c).2.writes = c.writes ++ [[0x01, 0x01]] ∨
    (subNegotiate config c).2.writes = c.writes ++ [[0x01, 0x00]] := by
  unfold subNegotiate
  split
  · left; rfl
  rename_i auth c1 h1
  have e1 := (readFull_writes_eq _ _ _ _ h1).1
  split
  · left; exact e1
  split
  · left; exact e1
  rename_i username c2 h2
  have e2 := (readFull_writes_eq _ _ _ _ h2).1
  split
  · left; rw [e2, e1]
  rename_i plenBuf c3 h3
  have e3 := (readFull_writes_eq _ _ _ _ h3).1
  split
  · left; rw [e3, e2, e1]
  rename_i password c4 h4
  have e4 := (readFull_writes_eq _ _ _ _ h4).1
  have hww : c4.writes = c.writes := by rw [e4, e3, e2, e1]
  repeat' split
  all_goals simp [Conn.write, hww]
  all_goals split <;> simp

/-- C1: for every greeting with a valid version byte, a method count, and
that many offered method identifiers: with a non-empty credential mapping
the negotiator writes the selection reply `[0x05, 0x02]` when method 0x02 is
offered and `[0x05, 0xFF]` otherwise; with an empty mapping it writes
`[0x05, 0x00]` when method 0x00 is offered and `[0x05, 0xFF]` otherwise;
whenever 0xFF is chosen (method count zero included) it fails. -/
theorem spec_C1_method_selection (config : Config) (methods rest : List Byte) (c : Conn)
    (hin : c.input = VERSION :: methods.length :: (methods ++ rest)) :
    (config.users ≠ [] → AUTH_USERNAME ∈ methods →
      ∃ s, (negotiateAuth config c).2.writes = c.writes ++ ([VERSION, AUTH_USERNAME] :: s)) ∧
    (config.users ≠ [] → AUTH_USERNAME ∉ methods →
      (negotiateAuth config c).2.writes = c.writes ++ [[VERSION, AUTH_NOACCEPT]] ∧
      ∃ e, (negotiateAuth config c).1 = .failed e) ∧
    (config.users = [] → AUTH_NONE ∈ methods →
      (negotiateAuth config c).2.writes = c.writes ++ [[VERSION, AUTH_NONE]]) ∧
    (config.users = [] → AUTH_NONE ∉ methods →
      (negotiateAuth config c).2.writes = c.writes ++ [[VERSION, AUTH_NOACCEPT]] ∧
      ∃ e, (negotiateAuth config c).1 = .failed e) := by
  rw [negotiateAuth_greeting config methods rest c hin]
  refine ⟨?_, ?_, ?_, ?_⟩
  · intro hu hm
    have hne : config.users.isEmpty = false := by
      cases hcu : config.users
      · exact absurd hcu hu
      · rfl
    simp only [hne, Bool.not_false, chooseMethod_true_mem methods hm, Conn.write]
    by_cases hw : c.failAt c.writes.length
    · exact ⟨[], by simp [hw]⟩
    · simp only [hw]
      rcases subNegotiate_writes config
          ⟨rest, c.writes ++ [[VERSION, AUTH_USERNAME]], c.failAt⟩ with h | h | h
      · exact ⟨[], by simpa [AUTH_USERNAME, AUTH_NOACCEPT] using h⟩
      · exact ⟨[[0x01, 0x01]], by simpa [AUTH_USERNAME, AUTH_NOACCEPT] using h⟩
      · exact ⟨[[0x01, 0x00]], by simpa [AUTH_USERNAME, AUTH_NOACCEPT] using h⟩
  · intro hu hm
    have hne : config.users.isEmpty = false := by
      cases hcu : config.users
      · exact absurd hcu hu
      · rfl
    simp only [hne, Bool.not_false, chooseMethod_true_not_mem methods hm, Conn.write]
    by_cases hw : c.failAt c.writes.length
    · simp [hw]
    · simp [hw, AUTH_NOACCEPT]
  · intro hu hm
    have hne : config.users.isEmpty = true := by rw [hu]; rfl
    simp only [hne, Bool.not_true, chooseMethod_false_mem methods hm, Conn.write]
    by_cases hw : c.failAt c.writes.length
    · simp [hw]
    · simp [hw, AUTH_NONE, AUTH_NOACCEPT, AUTH_USERNAME]
  · intro hu hm
    have hne : config.users.isEmpty = true := by rw [hu]; rfl
    simp only [hne, Bool.not_true, chooseMethod_false_not_mem methods hm, Conn.write]
    by_cases hw : c.failAt c.writes.length
    · simp [hw]
    · simp [hw, AUTH_NOACCEPT]

/-- Witness for C1: mapping `[([97],[98])]`, greeting `[5, 2, 0, 2]`
(two methods offered: 0x00 and 0x02) selects username/password. -/
theorem spec_C1_method_selection_witness :
    ∃ s, (negotiateAuth ⟨[([97], [98])]⟩
        ⟨[5, 2, 0, 2], [], fun _ => false⟩).2.writes =
      [] ++ ([VERSION, AUTH_USERNAME] :: s) :=
  (spec_C1_method_selection ⟨[([97], [98])]⟩ [0, 2] []
      ⟨[5, 2, 0, 2], [], fun _ => false⟩ rfl).1 (by decide) (by decide)

lemma subNegotiate_complete (config : Config) (u p rest : List Byte) (c : Conn)
    (hin : c.input = 0x01 :: u.length :: (u ++ (p.length :: (p ++ rest)))) :
    subNegotiate config c =
      (match config.users.lookup u with
       | none =>
         (.failed .invalidCredentials, (Conn.write { c with input := rest } [0x01, 0x01]).2)
       | some stored =>
         if stored ≠ p then
           (.failed .invalidCredentials, (Conn.write { c with input := rest } [0x01, 0x01]).2)
         else
           let w := Conn.write { c with input := rest } [0x01, 0x00]
           if w.1 then (.authenticated, w.2) else (.failed .writeError, w.2)) := by
  have h1 : readFull 2 c =
      some ([0x01, u.length], { c with input := u ++ (p.length :: (p ++ rest)) }) :=
    readFull_exact _ _ _ _ hin rfl
  have h2 : readFull u.length { c with input := u ++ (p.length :: (p ++ rest)) } =
      some (u, { c with input := p.length :: (p ++ rest) }) :=
    readFull_exact _ _ _ _ rfl rfl
  have h3 : readFull 1 { c with input := p.length :: (p ++ rest) } =
      some ([p.length], { c with input := p ++ rest }) :=
    readFull_exact _ _ _ _ rfl rfl
  have h4 : readFull p.length { c with input := p ++ rest } =
      some (p, { c with input := rest }) :=
    readFull_exact _ _ _ _ rfl rfl
  rw [subNegotiate, h1]
  simp only [List.getD_cons_zero, List.getD_cons_succ, h2, h3, h4]
  simp

/-- C2: for every username/password sub-negotiation with version byte 0x01
and length-prefixed username and password, reached through a valid greeting
offering method 0x02 against a non-empty mapping with all socket writes
succeeding: matching credentials yield status pair `[0x01, 0x00]` and
authenticated; an unknown username or differing password yields status pair
`[0x01, 0x01]` and a failed (not authenticated) return. -/
theorem spec_C2_credential_check (config : Config) (methods u p rest : List Byte) (c : Conn)
    (hne : config.users ≠ []) (hm : AUTH_USERNAME ∈ methods)
    (hu : u.length ≤ 255) (hp : p.length ≤ 255)
    (hin : c.input = VERSION :: methods.length ::
      (methods ++ (0x01 :: u.length :: (u ++ (p.length :: (p ++ rest))))))
    (hok : ∀ i, c.failAt i = false) :
    (config.users.lookup u = some p →
      (negotiateAuth config c).1 = .authenticated ∧
      (negotiateAuth config c).2.writes =
        c.writes ++ [[VERSION, AUTH_USERNAME], [0x01, 0x00]]) ∧
    (config.users.lookup u ≠ some p →
      (negotiateAuth config c).1 = .failed .invalidCredentials ∧
      (negotiateAuth config c).2.writes =
        c.writes ++ [[VERSION, AUTH_USERNAME], [0x01, 0x01]]) := by
  rw [negotiateAuth_greeting config methods _ c hin]
  have hne2 : config.users.isEmpty = false := by
    cases hcu : config.users
    · exact absurd hcu hne
    · rfl
  simp only [hne2, Bool.not_false, chooseMethod_true_mem methods hm, Conn.write, hok,
    Bool.not_false, Bool.not_true, if_false]
  rw [subNegotiate_complete config u p rest
    ⟨0x01 :: u.length :: (u ++ (p.length :: (p ++ rest))),
      c.writes ++ [[VERSION, AUTH_USERNAME]], c.failAt⟩ rfl]
  rcases hl : config.users.lookup u with _ | stored
  · refine ⟨fun hcontra => absurd hcontra (by simp), fun _ => ?_⟩
    simp [Conn.write, AUTH_USERNAME, AUTH_NOACCEPT]
  · by_cases hsp : stored = p
    · subst hsp
      refine ⟨fun _ => ?_, fun hcontra => absurd rfl hcontra⟩
      simp [Conn.write, hok, AUTH_USERNAME, AUTH_NOACCEPT]
    · refine ⟨fun hcontra => absurd (Option.some.inj hcontra) hsp, fun _ => ?_⟩
      simp [Conn.write, hsp, AUTH_USERNAME, AUTH_NOACCEPT]

/-- Witness for C2: mapping `[([97],[98])]`; correct credentials (`[97]`,
`[98]`) succeed, wrong password (`[99]`) fails. -/
theorem spec_C2_credential_check_witness :
    ((negotiateAuth ⟨[([97], [98])]⟩ ⟨[5, 1, 2, 1, 1, 97, 1, 98], [], fun _ => false⟩).1 =
        .authenticated ∧
      (negotiateAuth ⟨[([97], [98])]⟩
          ⟨[5, 1, 2, 1, 1, 97, 1, 98], [], fun _ => false⟩).2.writes =
        [] ++ [[VERSION, AUTH_USERNAME], [0x01, 0x00]]) ∧
    ((negotiateAuth ⟨[([97], [98])]⟩ ⟨[5, 1, 2, 1, 1, 97, 1, 99], [], fun _ => false⟩).1 =
        .failed .invalidCredentials ∧
      (negotiateAuth ⟨[([97], [98])]⟩
          ⟨[5, 1, 2, 1, 1, 97, 1, 99], [], fun _ => false⟩).2.writes =
        [] ++ [[VERSION, AUTH_USERNAME], [0x01, 0x01]]) :=
  ⟨(spec_C2_credential_check ⟨[([97], [98])]⟩ [2] [97] [98] []
      ⟨[5, 1, 2, 1, 1, 97, 1, 98], [], fun _ => false⟩ (by decide) (by decide)
      (by decide) (by decide) rfl (fun _ => rfl)).1 rfl,
   (spec_C2_credential_check ⟨[([97], [98])]⟩ [2] [97] [99] []
      ⟨[5, 1, 2, 1, 1, 97, 1, 99], [], fun _ => false⟩ (by decide) (by decide)
      (by decide) (by decide) rfl (fun _ => rfl)).2 (by decide)⟩

/-- C10: after a valid greeting selecting username/password (whose selection
reply write succeeds) and a complete sub-negotiation: on bad credentials the
failure status pair is written but its write error is discarded — the
negotiator returns the credential failure whatever the write oracle says;
on good credentials a failing write of the success pair `[0x01, 0x00]`
turns the return into a write-error failure. -/
theorem spec_C10_status_write_errors (config : Config) (u p rest : List Byte) (c : Conn)
    (hne : config.users ≠ [])
    (hin : c.input = VERSION :: 1 ::
      (AUTH_USERNAME :: (0x01 :: u.length :: (u ++ (p.length :: (p ++ rest))))))
    (h0 : c.failAt c.writes.length = false) :
    (config.users.lookup u ≠ some p →
      (negotiateAuth config c).1 = .failed .invalidCredentials ∧
      (negotiateAuth config c).2.writes =
        c.writes ++ [[VERSION, AUTH_USERNAME], [0x01, 0x01]]) ∧
    (config.users.lookup u = some p → c.failAt (c.writes.length + 1) = true →
      (negotiateAuth config c).1 = .failed .writeError ∧
      (negotiateAuth config c).2.writes =
        c.writes ++ [[VERSION, AUTH_USERNAME], [0x01, 0x00]]) := by
  have hin2 : c.input = VERSION :: ([AUTH_USERNAME] : List Byte).length ::
      ([AUTH_USERNAME] ++ (0x01 :: u.length :: (u ++ (p.length :: (p ++ rest))))) := hin
  rw [negotiateAuth_greeting config [AUTH_USERNAME] _ c hin2]
  have hne2 : config.users.isEmpty = false := by
    cases hcu : config.users
    · exact absurd hcu hne
    · rfl
  simp only [hne2, Bool.not_false, Conn.write, h0, Bool.not_true, if_false]
  have hcm : chooseMethod true [AUTH_USERNAME] = AUTH_USERNAME := rfl
  rw [hcm]
  rw [subNegotiate_complete config u p rest
    ⟨0x01 :: u.length :: (u ++ (p.length :: (p ++ rest))),
      c.writes ++ [[VERSION, AUTH_USERNAME]], c.failAt⟩ rfl]
  rcases hl : config.users.lookup u with _ | stored
  · refine ⟨fun _ => ?_, fun hcontra => absurd hcontra (by simp)⟩
    simp [Conn.write, AUTH_USERNAME, AUTH_NOACCEPT]
  · by_cases hsp : stored = p
    · subst hsp
      refine ⟨fun hcontra => absurd rfl hcontra, fun _ h1 => ?_⟩
      simp [Conn.write, AUTH_USERNAME, AUTH_NOACCEPT, h1]
    · refine ⟨fun _ => ?_, fun hcontra => absurd (Option.some.inj hcontra) hsp⟩
      simp [Conn.write, hsp, AUTH_USERNAME, AUTH_NOACCEPT]

/-- Witness for C10: with the second write erroring (`failAt 1`), wrong
credentials still return the credential failure, and correct credentials
return a write-error failure instead of authenticated. -/
theorem spec_C10_status_write_errors_witness :
    ((negotiateAuth ⟨[([97], [98])]⟩
        ⟨[5, 1, 2, 1, 1, 97, 1, 99], [], fun i => i == 1⟩).1 =
      .failed .invalidCredentials ∧
      (negotiateAuth ⟨[([97], [98])]⟩
          ⟨[5, 1, 2, 1, 1, 97, 1, 99], [], fun i => i == 1⟩).2.writes =
        [] ++ [[VERSION, AUTH_USERNAME], [0x01, 0x01]]) ∧
    ((negotiateAuth ⟨[([97], [98])]⟩
        ⟨[5, 1, 2, 1, 1, 97, 1, 98], [], fun i => i == 1⟩).1 =
      .failed .writeError ∧
      (negotiateAuth ⟨[([97], [98])]⟩
          ⟨[5, 1, 2, 1, 1, 97, 1, 98], [], fun i => i == 1⟩).2.writes =
        [] ++ [[VERSION, AUTH_USERNAME], [0x01, 0x00]]) :=
  ⟨(spec_C10_status_write_errors ⟨[([97], [98])]⟩ [97] [99] []
      ⟨[5, 1, 2, 1, 1, 97, 1, 99], [], fun i => i == 1⟩ (by decide) rfl rfl).1 (by decide),
   (spec_C10_status_write_errors ⟨[([97], [98])]⟩ [97] [98] []
      ⟨[5, 1, 2, 1, 1, 97, 1, 98], [], fun i => i == 1⟩ (by decide) rfl rfl).2 rfl rfl⟩

lemma readFull_short (n : Nat) (c : Conn) (h : c.input.length < n) :
    readFull n c = none := by
  unfold readFull
  rw [if_neg]
  omega

/-- C3 counterexample: on the byte stream `[0x04, 0x00]`, whose first byte
is not 0x05, the negotiator returns (with a protocol-version failure)
without having written any reply at all; and on the valid greeting
`[5, 1, 2]` selecting username/password against a non-empty mapping but
followed by an empty sub-negotiation stream, it returns having written only
the method-selection reply and no sub-negotiation status reply. -/
theorem spec_C3_counterexample :
    ((negotiateAuth ⟨[]⟩ ⟨[4, 0], [], fun _ => false⟩).2.writes = [] ∧
      (negotiateAuth ⟨[]⟩ ⟨[4, 0], [], fun _ => false⟩).1 = .failed .invalidVersion) ∧
    ((negotiateAuth ⟨[([97], [98])]⟩ ⟨[5, 1, 2], [], fun _ => false⟩).2.writes =
        [[VERSION, AUTH_USERNAME]] ∧
      (negotiateAuth ⟨[([97], [98])]⟩ ⟨[5, 1, 2], [], fun _ => false⟩).1 =
        .failed .readError) := by
  exact ⟨⟨rfl, rfl⟩, ⟨rfl, rfl⟩⟩

/-- C3 (amended): if the first byte is not 0x05 or the greeting is
incomplete (fewer than two bytes, or fewer method bytes than the count),
the negotiator returns without writing anything; whenever the input begins
with a complete greeting whose version byte is 0x05, it returns having
written exactly one two-byte method-selection reply, followed by at most
one sub-negotiation status reply, a status reply occurring only when
username/password was the selected method (a short or invalid
sub-negotiation stream ends the negotiation after the selection reply with
no status reply). -/
theorem spec_C3_reply_discipline (config : Config) (c : Conn) :
    (∀ b0 b1 rest, c.input = b0 :: b1 :: rest → b0 ≠ VERSION →
      (negotiateAuth config c).2.writes = c.writes) ∧
    (c.input.length < 2 → (negotiateAuth config c).2.writes = c.writes) ∧
    (∀ b1 rest, c.input = VERSION :: b1 :: rest → rest.length < b1 →
      (negotiateAuth config c).2.writes = c.writes) ∧
    (∀ methods rest, c.input = VERSION :: methods.length :: (methods ++ rest) →
      ∃ m s, (negotiateAuth config c).2.writes = c.writes ++ ([VERSION, m] :: s) ∧
        (s = [] ∨ s = [[0x01, 0x01]] ∨ s = [[0x01, 0x00]]) ∧
        (s ≠ [] → m = AUTH_USERNAME)) := by
  refine ⟨?_, ?_, ?_, ?_⟩
  · intro b0 b1 rest hin hb0
    have h1 : readFull 2 c = some ([b0, b1], { c with input := rest }) :=
      readFull_exact _ _ _ _ hin rfl
    rw [negotiateAuth, h1]
    simp [hb0]
  · intro hlen
    have h1 : readFull 2 c = none := readFull_short 2 c hlen
    rw [negotiateAuth, h1]
  · intro b1 rest hin hshort
    have h1 : readFull 2 c = some ([VERSION, b1], { c with input := rest }) :=
      readFull_exact _ _ _ _ hin rfl
    have h2 : readFull b1 { c with input := rest } = none := readFull_short _ _ hshort
    rw [negotiateAuth, h1]
    simp [h2]
  intro methods rest hin
  rw [negotiateAuth_greeting config methods rest c hin]
  simp only [Conn.write, Bool.not_not]
  split
  · exact ⟨chooseMethod (!config.users.isEmpty) methods, [], by simp, Or.inl rfl, by simp⟩
  split
  · exact ⟨chooseMethod (!config.users.isEmpty) methods, [], by simp, Or.inl rfl, by simp⟩
  split
  · rename_i hm2
    have hm2e : chooseMethod (!config.users.isEmpty) methods = AUTH_USERNAME := by
      exact beq_iff_eq.mp hm2
    rcases subNegotiate_writes config
        ⟨rest, c.writes ++ [[VERSION, chooseMethod (!config.users.isEmpty) methods]],
          c.failAt⟩ with h | h | h
    · exact ⟨chooseMethod (!config.users.isEmpty) methods, [], by simpa using h, Or.inl rfl,
        by simp⟩
    · refine ⟨AUTH_USERNAME, [[0x01, 0x01]], ?_, Or.inr (Or.inl rfl), fun _ => rfl⟩
      rw [← hm2e]
      simpa using h
    · refine ⟨AUTH_USERNAME, [[0x01, 0x00]], ?_, Or.inr (Or.inr rfl), fun _ => rfl⟩
      rw [← hm2e]
      simpa using h
  · exact ⟨chooseMethod (!config.users.isEmpty) methods, [], by simp, Or.inl rfl, by simp⟩

/-- Witness for the amended C3: no write on `[4, 0]`, on `[5]`, and on
`[5, 2, 0]` (one method byte missing); exactly one selection reply and no
status reply on the complete greeting `[5, 1, 0]` with an empty mapping. -/
theorem spec_C3_reply_discipline_witness :
    (negotiateAuth ⟨[]⟩ ⟨[4, 0], [], fun _ => false⟩).2.writes = [] ∧
    (negotiateAuth ⟨[]⟩ ⟨[5], [], fun _ => false⟩).2.writes = [] ∧
    (negotiateAuth ⟨[]⟩ ⟨[5, 2, 0], [], fun _ => false⟩).2.writes = [] ∧
    ∃ m s, (negotiateAuth ⟨[]⟩ ⟨[5, 1, 0], [], fun _ => false⟩).2.writes =
        [] ++ ([VERSION, m] :: s) ∧
      (s = [] ∨ s = [[0x01, 0x01]] ∨ s = [[0x01, 0x00]]) ∧
      (s ≠ [] → m = AUTH_USERNAME) :=
  ⟨(spec_C3_reply_discipline ⟨[]⟩ ⟨[4, 0], [], fun _ => false⟩).1 4 0 [] rfl (by decide),
   (spec_C3_reply_discipline ⟨[]⟩ ⟨[5], [], fun _ => false⟩).2.1 (by decide),
   (spec_C3_reply_discipline ⟨[]⟩ ⟨[5, 2, 0], [], fun _ => false⟩).2.2.1 2 [0] rfl
     (by decide),
   (spec_C3_reply_discipline ⟨[]⟩ ⟨[5, 1, 0], [], fun _ => false⟩).2.2.2 [0] [] rfl⟩

lemma uint16be_putUint16 (p : Nat) (hp : p < 65536) : uint16be (putUint16 p) = p := by
  unfold uint16be putUint16
  simp only [List.getD_cons_zero, List.getD_cons_succ]
  have h2 : p / 256 < 256 := by omega
  rw [Nat.mod_eq_of_lt h2]
  omega

lemma afterDial_dials (dialer : DstAddr → Nat → DialResult) (a : DstAddr) (p : Nat)
    (c : Conn) : (afterDial dialer a p c).dials = [(a, p)] := by
  unfold afterDial
  split
  · rfl
  · dsimp only
    split <;> rfl

lemma handleRequest_encode (dialer : DstAddr → Nat → DialResult) (a : DstAddr) (p : Nat)
    (rest : List Byte) (c : Conn) (hwf : a.wfb = true) (hp : p < 65536)
    (hin : c.input = encodeRequest a p ++ rest) :
    handleRequest dialer c = afterDial dialer a p { c with input := rest } := by
  cases a with
  | ipv4 b =>
    have hb : b.length = 4 := by simpa [DstAddr.wfb] using hwf
    have h1 : readFull 4 c = some ([VERSION, CMD_CONNECT, 0x00, ATYP_IPV4],
        { c with input := b ++ (putUint16 p ++ rest) }) :=
      readFull_exact _ _ _ _
        (by rw [hin]; simp [encodeRequest, DstAddr.atyp, DstAddr.encodeBytes]) rfl
    have h2 : readFull 4 { c with input := b ++ (putUint16 p ++ rest) } =
        some (b, { c with input := putUint16 p ++ rest }) :=
      readFull_exact _ _ _ _ rfl hb
    have h3 : readFull 2 { c with input := putUint16 p ++ rest } =
        some (putUint16 p, { c with input := rest }) :=
      readFull_exact _ _ _ _ rfl rfl
    rw [handleRequest, h1]
    simp [readAddr, h2, h3, uint16be_putUint16 p hp, VERSION, CMD_CONNECT, ATYP_IPV4]
  | domain d =>
    have h1 : readFull 4 c = some ([VERSION, CMD_CONNECT, 0x00, ATYP_DOMAINNAME],
        { c with input := d.length :: (d ++ (putUint16 p ++ rest)) }) :=
      readFull_exact _ _ _ _
        (by rw [hin]; simp [encodeRequest, DstAddr.atyp, DstAddr.encodeBytes]) rfl
    have h2 : readFull 1 { c with input := d.length :: (d ++ (putUint16 p ++ rest)) } =
        some ([d.length], { c with input := d ++ (putUint16 p ++ rest) }) :=
      readFull_exact _ _ _ _ rfl rfl
    have h3 : readFull d.length { c with input := d ++ (putUint16 p ++ rest) } =
        some (d, { c with input := putUint16 p ++ rest }) :=
      readFull_exact _ _ _ _ rfl rfl
    have h4 : readFull 2 { c with input := putUint16 p ++ rest } =
        some (putUint16 p, { c with input := rest }) :=
      readFull_exact _ _ _ _ rfl rfl
    rw [handleRequest, h1]
    simp [readAddr, h2, h3, h4, uint16be_putUint16 p hp, VERSION, CMD_CONNECT,
      ATYP_IPV4, ATYP_DOMAINNAME]
  | ipv6 b =>
    have hb : b.length = 16 := by simpa [DstAddr.wfb] using hwf
    have h1 : readFull 4 c = some ([VERSION, CMD_CONNECT, 0x00, ATYP_IPV6],
        { c with input := b ++ (putUint16 p ++ rest) }) :=
      readFull_exact _ _ _ _
        (by rw [hin]; simp [encodeRequest, DstAddr.atyp, DstAddr.encodeBytes]) rfl
    have h2 : readFull 16 { c with input := b ++ (putUint16 p ++ rest) } =
        some (b, { c with input := putUint16 p ++ rest }) :=
      readFull_exact _ _ _ _ rfl hb
    have h3 : readFull 2 { c with input := putUint16 p ++ rest } =
        some (putUint16 p, { c with input := rest }) :=
      readFull_exact _ _ _ _ rfl rfl
    rw [handleRequest, h1]
    simp [readAddr, h2, h3, uint16be_putUint16 p hp, VERSION, CMD_CONNECT,
      ATYP_IPV4, ATYP_DOMAINNAME, ATYP_IPV6]

/-- C4: for each of the three address types (IPv4 4 bytes, domain with a
length byte — boundary lengths 0 and 255 included — and IPv6 16 bytes)
followed by a big-endian port, parsing an encoded connect request recovers
the original destination and port: the dial is attempted at exactly
`(addr, port)`. -/
theorem spec_C4_roundtrip (dialer : DstAddr → Nat → DialResult) (a : DstAddr) (p : Nat)
    (rest : List Byte) (c : Conn) (hwf : a.wfb = true) (hp : p < 65536)
    (hin : c.input = encodeRequest a p ++ rest) :
    (handleRequest dialer c).dials = [(a, p)] := by
  rw [handleRequest_encode dialer a p rest c hwf hp hin, afterDial_dials]

/-- A dialer that always fails with a generic error, used as a witness
environment (the round trip does not depend on the dial outcome). -/
def failDialer : DstAddr → Nat → DialResult :=
  fun _ _ => .fail ⟨false, false, false, []⟩

set_option maxRecDepth 8000 in
/-- Witness for C4 at all three address types, with domain boundary lengths
0 and 255. -/
theorem spec_C4_roundtrip_witness :
    (handleRequest failDialer
        ⟨encodeRequest (.ipv4 [127, 0, 0, 1]) 80 ++ [], [], fun _ => false⟩).dials =
      [(.ipv4 [127, 0, 0, 1], 80)] ∧
    (handleRequest failDialer
        ⟨encodeRequest (.domain []) 0 ++ [], [], fun _ => false⟩).dials =
      [(.domain [], 0)] ∧
    (handleRequest failDialer
        ⟨encodeRequest (.domain (List.replicate 255 97)) 65535 ++ [], [], fun _ => false⟩).dials =
      [(.domain (List.replicate 255 97), 65535)] ∧
    (handleRequest failDialer
        ⟨encodeRequest (.ipv6 (List.replicate 16 0)) 443 ++ [], [], fun _ => false⟩).dials =
      [(.ipv6 (List.replicate 16 0), 443)] :=
  ⟨spec_C4_roundtrip failDialer (.ipv4 [127, 0, 0, 1]) 80 [] _ (by decide) (by decide) rfl,
   spec_C4_roundtrip failDialer (.domain []) 0 [] _ (by decide) (by decide) rfl,
   spec_C4_roundtrip failDialer (.domain (List.replicate 255 97)) 65535 [] _ (by decide)
     (by decide) rfl,
   spec_C4_roundtrip failDialer (.ipv6 (List.replicate 16 0)) 443 [] _ (by decide)
     (by decide) rfl⟩

/-- C5: a request whose command byte is not 0x01 gets the reply carrying
code 0x07 and fails with no further request bytes read and no dial attempt;
a connect request whose address-type byte is not in 0x01/0x03/0x04 gets the
reply carrying code 0x08 and fails with no dial attempt. -/
theorem spec_C5_unsupported (dialer : DstAddr → Nat → DialResult) (cmd atyp r : Byte)
    (rest : List Byte) (c : Conn) :
    (cmd ≠ CMD_CONNECT → c.input = VERSION :: cmd :: r :: atyp :: rest →
      (handleRequest dialer c).res = .failed .cmdNotSupported ∧
      (handleRequest dialer c).conn.writes =
        c.writes ++ [[VERSION, REP_CMD_NOT_SUPPORTED, 0x00, ATYP_IPV4, 0, 0, 0, 0, 0, 0]] ∧
      (handleRequest dialer c).conn.input = rest ∧
      (handleRequest dialer c).dials = []) ∧
    (cmd = CMD_CONNECT → atyp ≠ ATYP_IPV4 → atyp ≠ ATYP_DOMAINNAME → atyp ≠ ATYP_IPV6 →
      c.input = VERSION :: cmd :: r :: atyp :: rest →
      (handleRequest dialer c).res = .failed .atypNotSupported ∧
      (handleRequest dialer c).conn.writes =
        c.writes ++ [[VERSION, REP_ATYP_NOT_SUPPORTED, 0x00, ATYP_IPV4, 0, 0, 0, 0, 0, 0]] ∧
      (handleRequest dialer c).conn.input = rest ∧
      (handleRequest dialer c).dials = []) := by
  constructor
  · intro hcmd hin
    have h1 : readFull 4 c = some ([VERSION, cmd, r, atyp], { c with input := rest }) :=
      readFull_exact _ _ _ _ hin rfl
    rw [handleRequest, h1]
    simp [hcmd, writeReply, Conn.write, putUint16, VERSION]
  · intro hcmd h1t h3t h4t hin
    subst hcmd
    have h1 : readFull 4 c =
        some ([VERSION, CMD_CONNECT, r, atyp], { c with input := rest }) :=
      readFull_exact _ _ _ _ hin rfl
    rw [handleRequest, h1]
    simp [readAddr, h1t, h3t, h4t, writeReply, Conn.write, putUint16, VERSION, CMD_CONNECT]

/-- Witness for C5: command 0x02 (bind) yields reply code 0x07; address
type 0x7F yields reply code 0x08; neither dials. -/
theorem spec_C5_unsupported_witness :
    ((handleRequest failDialer ⟨[5, 2, 0, 1, 9, 9], [], fun _ => false⟩).res =
        .failed .cmdNotSupported ∧
      (handleRequest failDialer ⟨[5, 2, 0, 1, 9, 9], [], fun _ => false⟩).conn.writes =
        [] ++ [[VERSION, REP_CMD_NOT_SUPPORTED, 0x00, ATYP_IPV4, 0, 0, 0, 0, 0, 0]] ∧
      (handleRequest failDialer ⟨[5, 2, 0, 1, 9, 9], [], fun _ => false⟩).conn.input =
        [9, 9] ∧
      (handleRequest failDialer ⟨[5, 2, 0, 1, 9, 9], [], fun _ => false⟩).dials = []) ∧
    ((handleRequest failDialer ⟨[5, 1, 0, 127, 9, 9], [], fun _ => false⟩).res =
        .failed .atypNotSupported ∧
      (handleRequest failDialer ⟨[5, 1, 0, 127, 9, 9], [], fun _ => false⟩).conn.writes =
        [] ++ [[VERSION, REP_ATYP_NOT_SUPPORTED, 0x00, ATYP_IPV4, 0, 0, 0, 0, 0, 0]] ∧
      (handleRequest failDialer ⟨[5, 1, 0, 127, 9, 9], [], fun _ => false⟩).conn.input =
        [9, 9] ∧
      (handleRequest failDialer ⟨[5, 1, 0, 127, 9, 9], [], fun _ => false⟩).dials = []) :=
  ⟨(spec_C5_unsupported failDialer 2 1 0 [9, 9] ⟨[5, 2, 0, 1, 9, 9], [], fun _ => false⟩).1
      (by decide) rfl,
   (spec_C5_unsupported failDialer 1 127 0 [9, 9] ⟨[5, 1, 0, 127, 9, 9], [], fun _ => false⟩).2
      rfl (by decide) (by decide) (by decide) rfl⟩

/-- C7: on a dial failure for a well-formed connect request, the processor
writes exactly one reply `[0x05, code, 0x00, 0x01, 0,0,0,0, 0,0]` where
`code` is the error mapper's output for that failure, fails, and never
enters the relay phase. -/
theorem spec_C7_dial_failure_reply (dialer : DstAddr → Nat → DialResult) (a : DstAddr)
    (p : Nat) (e : DialError) (rest : List Byte) (c : Conn)
    (hwf : a.wfb = true) (hp : p < 65536)
    (hin : c.input = encodeRequest a p ++ rest)
    (hd : dialer a p = .fail e) :
    (handleRequest dialer c).res = .failed (.dialFailed e) ∧
    (handleRequest dialer c).conn.writes =
      c.writes ++ [[VERSION, mapDialError e, 0x00, ATYP_IPV4, 0, 0, 0, 0, 0, 0]] ∧
    (handleRequest dialer c).relayed = false := by
  rw [handleRequest_encode dialer a p rest c hwf hp hin]
  unfold afterDial
  rw [hd]
  simp [writeReply, Conn.write, putUint16]

/-- Witness for C7: a refused dial to 127.0.0.1:80 produces the single
reply `[5, 5, 0, 1, 0,0,0,0, 0,0]` and no relay. -/
theorem spec_C7_dial_failure_reply_witness :
    ((handleRequest (fun _ _ => .fail ⟨false, true, false, []⟩)
        ⟨encodeRequest (.ipv4 [127, 0, 0, 1]) 80, [], fun _ => false⟩).res =
      .failed (.dialFailed ⟨false, true, false, []⟩) ∧
      (handleRequest (fun _ _ => .fail ⟨false, true, false, []⟩)
          ⟨encodeRequest (.ipv4 [127, 0, 0, 1]) 80, [], fun _ => false⟩).conn.writes =
        [] ++ [[VERSION, mapDialError ⟨false, true, false, []⟩, 0x00, ATYP_IPV4,
          0, 0, 0, 0, 0, 0]] ∧
      (handleRequest (fun _ _ => .fail ⟨false, true, false, []⟩)
          ⟨encodeRequest (.ipv4 [127, 0, 0, 1]) 80, [], fun _ => false⟩).relayed = false) :=
  spec_C7_dial_failure_reply (fun _ _ => .fail ⟨false, true, false, []⟩)
    (.ipv4 [127, 0, 0, 1]) 80 ⟨false, true, false, []⟩ []
    ⟨encodeRequest (.ipv4 [127, 0, 0, 1]) 80, [], fun _ => false⟩
    (by decide) (by decide) (List.append_nil _).symm rfl

/-- C8: on a successful dial the processor writes a success reply (code
0x00) whose bound address and port are the local endpoint of the outbound
socket, typed 0x01 with 4 address bytes for an IPv4 local address and 0x04
with 16 address bytes for an IPv6 one. -/
theorem spec_C8_bound_success (dialer : DstAddr → Nat → DialResult) (a : DstAddr)
    (p : Nat) (ip : LocalIP) (lport : Nat) (rest : List Byte) (c : Conn)
    (hwf : a.wfb = true) (hp : p < 65536)
    (hin : c.input = encodeRequest a p ++ rest)
    (hd : dialer a p = .ok ip lport) :
    (∀ b, ip = .v4 b → b.length = 4 →
      (handleRequest dialer c).conn.writes =
        c.writes ++ [[VERSION, REP_SUCCESS, 0x00, ATYP_IPV4] ++ b ++ putUint16 lport]) ∧
    (∀ b, ip = .v6 b → b.length = 16 →
      (handleRequest dialer c).conn.writes =
        c.writes ++ [[VERSION, REP_SUCCESS, 0x00, ATYP_IPV6] ++ b ++ putUint16 lport]) := by
  rw [handleRequest_encode dialer a p rest c hwf hp hin]
  unfold afterDial
  rw [hd]
  constructor
  · rintro b rfl hb
    have hb16 : (b.length == 16) = false := by simp [hb]
    dsimp only
    split <;> simp [writeBoundSuccess, Conn.write, LocalIP.ipBytes, hb16]
  · rintro b rfl hb
    have hb16 : (b.length == 16) = true := by simp [hb]
    dsimp only
    split <;> simp [writeBoundSuccess, Conn.write, LocalIP.ipBytes, hb16]

/-- Witness for C8 with an IPv4 local endpoint 10.0.0.2:4321 and an IPv6
local endpoint of 16 zero bytes, port 1. -/
theorem spec_C8_bound_success_witness :
    (handleRequest (fun _ _ => .ok (.v4 [10, 0, 0, 2]) 4321)
        ⟨encodeRequest (.domain [97]) 80, [], fun _ => false⟩).conn.writes =
      [] ++ [[VERSION, REP_SUCCESS, 0x00, ATYP_IPV4] ++ [10, 0, 0, 2] ++ putUint16 4321] ∧
    (handleRequest (fun _ _ => .ok (.v6 (List.replicate 16 0)) 1)
        ⟨encodeRequest (.domain [97]) 80, [], fun _ => false⟩).conn.writes =
      [] ++ [[VERSION, REP_SUCCESS, 0x00, ATYP_IPV6] ++ List.replicate 16 0 ++ putUint16 1] :=
  ⟨(spec_C8_bound_success (fun _ _ => .ok (.v4 [10, 0, 0, 2]) 4321) (.domain [97]) 80
      (.v4 [10, 0, 0, 2]) 4321 [] ⟨encodeRequest (.domain [97]) 80, [], fun _ => false⟩
      (by decide) (by decide) (List.append_nil _).symm rfl).1 [10, 0, 0, 2] rfl (by decide),
   (spec_C8_bound_success (fun _ _ => .ok (.v6 (List.replicate 16 0)) 1) (.domain [97]) 80
      (.v6 (List.replicate 16 0)) 1 [] ⟨encodeRequest (.domain [97]) 80, [], fun _ => false⟩
      (by decide) (by decide) (List.append_nil _).symm rfl).2 (List.replicate 16 0) rfl
      (by decide)⟩

/-- C6: the error mapper is total on dial errors: a timeout yields 0x04, an
actively refused connection (ECONNREFUSED syscall error, tested after the
timeout check) yields 0x05, a name-resolution failure yields 0x04, a
network-unreachable error yields 0x03, and everything unclassified falls to
the general-failure code 0x01; every error maps to one of these codes. -/
theorem spec_C6_error_mapping (e : DialError) :
    (e.isTimeout = true → mapDialError e = REP_HOST_UNREACHABLE) ∧
    (e.isTimeout = false → e.isConnRefusedSyscall = true →
      mapDialError e = REP_CONNECTION_REFUSED) ∧
    (e.isTimeout = false → e.isConnRefusedSyscall = false → e.isDNSError = true →
      mapDialError e = REP_HOST_UNREACHABLE) ∧
    (e.isTimeout = false → e.isConnRefusedSyscall = false → e.isDNSError = false →
      containsSeq e.msg ("connection refused".toList) = true →
      mapDialError e = REP_CONNECTION_REFUSED) ∧
    (e.isTimeout = false → e.isConnRefusedSyscall = false → e.isDNSError = false →
      containsSeq e.msg ("connection refused".toList) = false →
      containsSeq e.msg ("network is unreachable".toList) = true →
      mapDialError e = REP_NETWORK_UNREACHABLE) ∧
    (e.isTimeout = false → e.isConnRefusedSyscall = false → e.isDNSError = false →
      containsSeq e.msg ("connection refused".toList) = false →
      containsSeq e.msg ("network is unreachable".toList) = false →
      mapDialError e = REP_GENERAL_FAILURE) ∧
    (mapDialError e = REP_GENERAL_FAILURE ∨ mapDialError e = REP_NETWORK_UNREACHABLE ∨
      mapDialError e = REP_HOST_UNREACHABLE ∨ mapDialError e = REP_CONNECTION_REFUSED) := by
  refine ⟨?_, ?_, ?_, ?_, ?_, ?_, ?_⟩
  · intro h1
    simp only [mapDialError, h1]
    simp
  · intro h1 h2
    simp only [mapDialError, h1, h2]
    simp
  · intro h1 h2 h3
    simp only [mapDialError, h1, h2, h3]
    simp
  · intro h1 h2 h3 h4
    simp only [mapDialError, h1, h2, h3, h4]
    simp
  · intro h1 h2 h3 h4 h5
    simp only [mapDialError, h1, h2, h3, h4, h5]
    simp
  · intro h1 h2 h3 h4 h5
    simp only [mapDialError, h1, h2, h3, h4, h5]
    simp
  · unfold mapDialError
    repeat' split
    all_goals simp

/-- Witness for C6: one concrete error per class — a timeout, a refused
syscall error, a DNS error, a message-classified refused and unreachable
error, and an unclassified one. -/
theorem spec_C6_error_mapping_witness :
    mapDialError ⟨true, false, false, []⟩ = REP_HOST_UNREACHABLE ∧
    mapDialError ⟨false, true, false, []⟩ = REP_CONNECTION_REFUSED ∧
    mapDialError ⟨false, false, true, []⟩ = REP_HOST_UNREACHABLE ∧
    mapDialError ⟨false, false, false, "dial tcp: connection refused".toList⟩ =
      REP_CONNECTION_REFUSED ∧
    mapDialError ⟨false, false, false, "connect: network is unreachable".toList⟩ =
      REP_NETWORK_UNREACHABLE ∧
    mapDialError ⟨false, false, false, "something odd".toList⟩ = REP_GENERAL_FAILURE :=
  ⟨(spec_C6_error_mapping ⟨true, false, false, []⟩).1 rfl,
   (spec_C6_error_mapping ⟨false, true, false, []⟩).2.1 rfl rfl,
   (spec_C6_error_mapping ⟨false, false, true, []⟩).2.2.1 rfl rfl rfl,
   (spec_C6_error_mapping
      ⟨false, false, false, "dial tcp: connection refused".toList⟩).2.2.2.1 rfl rfl rfl
      (by decide),
   (spec_C6_error_mapping
      ⟨false, false, false, "connect: network is unreachable".toList⟩).2.2.2.2.1 rfl rfl rfl
      (by decide) (by decide),
   (spec_C6_error_mapping
      ⟨false, false, false, "something odd".toList⟩).2.2.2.2.2.1 rfl rfl rfl
      (by decide) (by decide)⟩

end MicroSocks
